import Mathlib

/-!
Verification of the Excel-to-JSON converter (`skeliton.py`).

The source is a four-node pipeline: `InputNode` (spreadsheet load),
`RuleForWriterNode` (rules load with built-in defaults), `JsonWriterNode`
(the transformer) and `OutputNode` (serialisation).  We embed the data
model and the pure transformation logic shallowly: cell values become an
inductive type, pandas frames become a `Table` of column names and rows,
Python dicts with known keys become structures with `Option` fields, and
the stateful memoising getters become explicit state-passing functions.

Python-semantics notes that the embedding must respect:
* `isinstance(True, int)` holds in Python (`bool` is a subtype of `int`),
  so the `isinstance(value, (int, float))` test in `determine_data_type`
  is true for booleans.
* `pd.isna` is true exactly for missing values (None / NaN); we model a
  missing cell by the `null` constructor.
* `str.upper` / `str.lower` are modelled with the ASCII case maps, which
  agree with Python on all data appearing in this repository.
-/

/-- A scalar cell value as read from the spreadsheet.  `null` stands for a
missing value (Python `None` or pandas `NaN`).  A float is carried by its
printed representation: the source never computes with floats, it only
classifies them and prints them. -/
inductive CellValue where
  | null : CellValue
  | str (s : String) : CellValue
  | intV (n : Int) : CellValue
  | floatV (r : String) : CellValue
  | boolV (b : Bool) : CellValue
deriving DecidableEq, Repr

namespace CellValue

/-- Embeds `pd.isna(value)`: true exactly on missing values. -/
def pd_isna : CellValue → Bool
  | null => true
  | _ => false

/-- Embeds `pd.notna(value)`. -/
def pd_notna (v : CellValue) : Bool := !(pd_isna v)

/-- Embeds `isinstance(value, str)`. -/
def isinstance_str : CellValue → Bool
  | str _ => true
  | _ => false

/-- Embeds `isinstance(value, (int, float))`.  In Python `bool` is a
subtype of `int`, so this is also true on booleans. -/
def isinstance_int_float : CellValue → Bool
  | intV _ => true
  | floatV _ => true
  | boolV _ => true
  | _ => false

/-- Embeds `isinstance(value, bool)`. -/
def isinstance_bool : CellValue → Bool
  | boolV _ => true
  | _ => false

/-- Embeds Python `str(value)` on cell values (`str(True) = "True"`). -/
def pyStr : CellValue → String
  | null => "nan"
  | str s => s
  | intV n => toString n
  | floatV r => r
  | boolV b => if b then "True" else "False"

end CellValue

/-- ASCII embedding of Python `str.upper()`. -/
def pyUpper (s : String) : String := ⟨s.data.map Char.toUpper⟩

/-- ASCII embedding of Python `str.lower()`. -/
def pyLower (s : String) : String := ⟨s.data.map Char.toLower⟩

/-- Embeds Python `s.replace(a, b)` for single-character arguments. -/
def pyReplaceChar (s : String) (a b : Char) : String :=
  ⟨s.data.map (fun c => if c = a then b else c)⟩

/-- Helper for substring containment: `needle` occurs contiguously in
`hay`. -/
def isSubListOf (needle hay : List Char) : Bool :=
  match hay with
  | [] => needle.isEmpty
  | _ :: t => needle.isPrefixOf hay || isSubListOf needle t

/-- Embeds the Python expression `needle in hay` on strings. -/
def pyInStr (needle hay : String) : Bool := isSubListOf needle.data hay.data

/-- An in-memory spreadsheet: ordered column names plus rows of cell
values, the i-th value of a row belonging to the i-th column (as in a
pandas `DataFrame` read from Excel). -/
structure Table where
  columns : List String
  rows : List (List CellValue)
deriving DecidableEq, Repr

/-- A pattern configuration, i.e. one value of the rules file's
`patterns` mapping.  Each field is `Option`al because the source reads
them with `dict.get(key, default)`; `kind_mapping` is stored but never
read by the transformer. -/
structure PatternConfig where
  pi_code : Option String := none
  section_prefix : Option String := none
  label_prefix : Option String := none
  code_suffix : Option String := none
  kind_mapping : List (String × String) := []
deriving DecidableEq, Repr

/-- The empty dict `{}` that `get_rule_by_pattern` returns for an absent
key. -/
def PatternConfig.empty : PatternConfig := {}

/-- A loaded rules document.  `patterns = none` models a JSON object with
no `"patterns"` key (this includes the falsy empty dict, which takes the
same branch in `get_rule_by_pattern`). -/
structure Rules where
  patterns : Option (List (String × PatternConfig)) := none
deriving DecidableEq, Repr

/-- Outcome of opening and parsing a file, abstracting the I/O the
source performs inside `try`/`except`. -/
inductive LoadResult (α : Type) where
  | ok (a : α) : LoadResult α
  | fileNotFound : LoadResult α
  | otherError : LoadResult α
deriving DecidableEq, Repr

namespace InputNode

/-- Mutable state of `InputNode`: the memoised `self.data` field. -/
structure State where
  data : Option Table := none
deriving DecidableEq, Repr

/-- Embeds `InputNode.process`: on success stores and returns the frame;
on any failure prints and returns `None`, leaving `self.data` as it was. -/
def process (file : LoadResult Table) (s : State) : Option Table × State :=
  match file with
  | .ok t => (some t, { data := some t })
  | _ => (none, s)

/-- Embeds `InputNode.get_data`: return `self.data` if set, else run
`process`. -/
def get_data (file : LoadResult Table) (s : State) : Option Table × State :=
  match s.data with
  | some d => (some d, s)
  | none => process file s

/-- Number of file reads a `get_data` call performs from state `s`: none
when the cache is set, one (inside `process`) when it is not. -/
def get_data_reads (s : State) : Nat :=
  match s.data with
  | some _ => 0
  | none => 1

end InputNode

namespace RuleForWriterNode

/-- Mutable state of `RuleForWriterNode`: the memoised `self.rules`
field. -/
structure State where
  rules : Option Rules := none
deriving DecidableEq, Repr

/-- Embeds `RuleForWriterNode._get_default_rules`: the built-in default
rules document. -/
def get_default_rules : Rules :=
  { patterns := some
      [("text_pattern",
        { pi_code := some "MES_REVENGG_TESTRUN",
          section_prefix := some "SECTION",
          label_prefix := some "LABEL_",
          code_suffix := some "_TextPara",
          kind_mapping :=
            [("text", "TEXT"), ("number", "NUMBER"), ("boolean", "BOOLEAN")] })] }

/-- Embeds `RuleForWriterNode.process`: parse the rules file; on
`FileNotFoundError` store and return the defaults; on any other failure
return `None` leaving `self.rules` as it was. -/
def process (file : LoadResult Rules) (s : State) : Option Rules × State :=
  match file with
  | .ok r => (some r, { rules := some r })
  | .fileNotFound => (some get_default_rules, { rules := some get_default_rules })
  | .otherError => (none, s)

/-- Embeds `RuleForWriterNode.get_rules`: return `self.rules` if set,
else run `process`. -/
def get_rules (file : LoadResult Rules) (s : State) : Option Rules × State :=
  match s.rules with
  | some r => (some r, s)
  | none => process file s

/-- Number of file reads a `get_rules` call performs from state `s`. -/
def get_rules_reads (s : State) : Nat :=
  match s.rules with
  | some _ => 0
  | none => 1

/-- Embeds `RuleForWriterNode.get_rule_by_pattern`: if `self.rules` is a
truthy dict with a `"patterns"` key, look the pattern key up with `{}` as
default; otherwise return `{}`. -/
def get_rule_by_pattern (s : State) (pattern_key : String) : PatternConfig :=
  match s.rules with
  | some r =>
    match r.patterns with
    | some ps => (ps.lookup pattern_key).getD PatternConfig.empty
    | none => PatternConfig.empty
  | none => PatternConfig.empty

end RuleForWriterNode

/-- One output row: the source dict
`{label, kind, code, html_overrides: {value}}` with `value` flattened. -/
structure RowItem where
  label : String
  kind : String
  code : String
  html_overrides_value : String
deriving DecidableEq, Repr

/-- One output section: `{title, rows}`. -/
structure Section where
  title : String
  rows : List RowItem
deriving DecidableEq, Repr

/-- The assembled output document: `{pi_code, sections}`. -/
structure OutputDocument where
  pi_code : String
  sections : List Section
deriving DecidableEq, Repr

namespace JsonWriterNode

/-- Mutable state of `JsonWriterNode`: the memoised `self.output_json`
field. -/
structure State where
  output_json : Option OutputDocument := none
deriving DecidableEq, Repr

/-- Embeds `JsonWriterNode.analyze_data_pattern`, which only inspects the
frame's column names: join the lowercased names with spaces and test
substrings in fixed order. -/
def analyze_data_pattern (columns : List String) : String :=
  let column_str := String.intercalate " " (columns.map pyLower)
  if pyInStr "text" column_str || pyInStr "name" column_str then
    "text_pattern"
  else if pyInStr "section" column_str then
    "section_pattern"
  else
    "text_pattern"

/-- Embeds `JsonWriterNode.determine_data_type`.  The branch order is the
source's: the `isinstance(value, (int, float))` test precedes the
`isinstance(value, bool)` test, and in Python the former is already true
on booleans. -/
def determine_data_type (value : CellValue) : String :=
  if value.pd_isna then "TEXT"
  else if value.isinstance_str then "TEXT"
  else if value.isinstance_int_float then "NUMBER"
  else if value.isinstance_bool then "BOOLEAN"
  else "TEXT"

/-- Embeds the inner column loop of `process_sections`: one `RowItem` per
`pd.notna` cell of the row, in column order.  `row` is the list of
(column name, cell value) pairs that `row.items()` yields. -/
def row_items (lp cs : String) (row : List (String × CellValue)) :
    List RowItem :=
  row.filterMap (fun p =>
    if p.2.pd_notna then
      some { label := lp ++ pyUpper p.1,
             kind := determine_data_type p.2,
             code := p.1 ++ cs,
             html_overrides_value :=
               "[GENAI_REVENGG_" ++ pyReplaceChar (pyUpper p.2.pyStr) ' ' '_' ++ "]" }
    else none)

/-- Embeds `JsonWriterNode.process_sections`: read the three prefixes
with their `dict.get` defaults, then build one titled section per row of
the frame, in row order (`iterrows` indices are 0, 1, 2, ...). -/
def process_sections (data : Table) (rules : PatternConfig) : List Section :=
  let sp := ( PatternConfig.section_prefix rules).getD "SECTION"
  let lp := ( PatternConfig.label_prefix rules).getD "LABEL_"
  let cs := rules.code_suffix.getD "_Code"
  data.rows.enum.map (fun p =>
    { title := sp ++ " " ++ toString (p.1 + 1),
      rows := row_items lp cs (data.columns.zip p.2) })

/-- Embeds `JsonWriterNode.process`, threading the states of the two
upstream nodes: fetch the frame and the rules through their memoising
getters, bail out with `None` (without touching `self.output_json`) if
either is `None`, otherwise select a pattern, fetch its config and store
and return the assembled document. -/
def process (excel : LoadResult Table) (rules_file : LoadResult Rules)
    (si : InputNode.State) (sr : RuleForWriterNode.State) (sw : State) :
    Option OutputDocument × InputNode.State × RuleForWriterNode.State × State :=
  match InputNode.get_data excel si with
  | (none, si') => (none, si', sr, sw)
  | (some table, si') =>
    match RuleForWriterNode.get_rules rules_file sr with
    | (none, sr') => (none, si', sr', sw)
    | (some _, sr') =>
      let pattern := analyze_data_pattern table.columns
      let pattern_rules := RuleForWriterNode.get_rule_by_pattern sr' pattern
      let doc : OutputDocument :=
        { pi_code := pattern_rules.pi_code.getD "DEFAULT_CODE",
          sections := process_sections table pattern_rules }
      (some doc, si', sr', { output_json := some doc })

/-- Embeds `JsonWriterNode.get_output`: return `self.output_json` if set,
else run `process`. -/
def get_output (excel : LoadResult Table) (rules_file : LoadResult Rules)
    (si : InputNode.State) (sr : RuleForWriterNode.State) (sw : State) :
    Option OutputDocument × InputNode.State × RuleForWriterNode.State × State :=
  match sw.output_json with
  | some d => (some d, si, sr, sw)
  | none => process excel rules_file si sr sw

end JsonWriterNode

namespace JsonWriterNode

/-- True exactly when a `get_output` call from writer state `sw` falls
through to `process` instead of returning the cached document. -/
def get_output_reprocesses (sw : State) : Bool := sw.output_json.isNone

end JsonWriterNode

/-- The pattern-selection rule as spec §4.3 states it, written from the
spec's words for comparison with the source embedding
`JsonWriterNode.analyze_data_pattern`: inspect the lowercase-joined
column names; if they contain the substring "text" or "name", select
`text_pattern`; else if they contain "section", select
`section_pattern`; else default to `text_pattern`. -/
def analyze_data_pattern_specification (columns : List String) : String :=
  let joined := String.intercalate " " (columns.map pyLower)
  if pyInStr "text" joined then "text_pattern"
  else if pyInStr "name" joined then "text_pattern"
  else if pyInStr "section" joined then "section_pattern"
  else "text_pattern"

/-! ## Helper lemmas (shared across several claims) -/

theorem determine_data_type_text_or_number (v : CellValue) :
    JsonWriterNode.determine_data_type v = "TEXT" ∨
      JsonWriterNode.determine_data_type v = "NUMBER" := by
  cases v <;>
    simp [JsonWriterNode.determine_data_type, CellValue.pd_isna,
      CellValue.isinstance_str, CellValue.isinstance_int_float,
      CellValue.isinstance_bool]

theorem determine_data_type_ne_boolean (v : CellValue) :
    JsonWriterNode.determine_data_type v ≠ "BOOLEAN" := by
  rcases determine_data_type_text_or_number v with h | h <;> rw [h] <;> decide

theorem length_row_items (lp cs : String) (row : List (String × CellValue)) :
    (JsonWriterNode.row_items lp cs row).length =
      row.countP (fun p => p.2.pd_notna) := by
  induction row with
  | nil => rfl
  | cons a t ih =>
    unfold JsonWriterNode.row_items at ih ⊢
    rw [List.filterMap_cons, List.countP_cons]
    by_cases hn : a.2.pd_notna = true <;> simp [hn, ih]

theorem mem_row_items_kind (lp cs : String) (row : List (String × CellValue))
    (item : RowItem) (hi : item ∈ JsonWriterNode.row_items lp cs row) :
    ∃ v : CellValue, item.kind = JsonWriterNode.determine_data_type v := by
  rw [JsonWriterNode.row_items, List.mem_filterMap] at hi
  obtain ⟨q, _, hif⟩ := hi
  by_cases hn : q.2.pd_notna = true
  · rw [if_pos hn, Option.some_inj] at hif
    exact ⟨q.2, by rw [← hif]⟩
  · rw [if_neg hn] at hif
    exact absurd hif (Option.noConfusion)

/-! ## Claim theorems -/

/-- C1 (code bug in the source): the spec demands that a boolean cell is
classified `BOOLEAN`, with the boolean check effective before the numeric
one.  The source tests `isinstance(value, (int, float))` first, and in
Python that test is already true on booleans, so `True` is classified
`NUMBER` and the `BOOLEAN` branch is unreachable.  This theorem evaluates
the embedded classifier at the failing input. -/
theorem C1_true_classified_as_number :
    JsonWriterNode.determine_data_type (.boolV true) = "NUMBER" ∧
    JsonWriterNode.determine_data_type (.boolV true) ≠ "BOOLEAN" := by
  exact ⟨rfl, by decide⟩

/-- C3: pattern selection is a total deterministic first-match function
of the column names, agreeing with the spec's description (text/name
before section, default `text_pattern`), and `["Name", "Section"]`
selects `text_pattern`. -/
theorem C3_pattern_selection (columns : List String) :
    JsonWriterNode.analyze_data_pattern columns =
      analyze_data_pattern_specification columns ∧
    JsonWriterNode.analyze_data_pattern ["Name", "Section"] = "text_pattern" := by
  constructor
  · unfold JsonWriterNode.analyze_data_pattern analyze_data_pattern_specification
    by_cases h1 : pyInStr "text" (String.intercalate " " (columns.map pyLower)) = true <;>
      by_cases h2 : pyInStr "name" (String.intercalate " " (columns.map pyLower)) = true <;>
        simp [h1, h2]
  · rfl

/-- C4: when the rules file is absent, the store's `process` returns the
built-in default rules (absence is not an error), and those defaults hold
exactly one pattern key, `text_pattern`, with the enumerated values. -/
theorem C4_default_rules_on_absent_file (s : RuleForWriterNode.State) :
    (RuleForWriterNode.process .fileNotFound s).1 =
      some RuleForWriterNode.get_default_rules ∧
    RuleForWriterNode.get_default_rules.patterns = some
      [("text_pattern",
        { pi_code := some "MES_REVENGG_TESTRUN",
          section_prefix := some "SECTION",
          label_prefix := some "LABEL_",
          code_suffix := some "_TextPara",
          kind_mapping :=
            [("text", "TEXT"), ("number", "NUMBER"), ("boolean", "BOOLEAN")] })] :=
  ⟨rfl, rfl⟩

/-- C5: end-to-end transform of the one-column table `["Name"]` with row
`["john doe"]` under the default rules (absent rules file) yields exactly
the document the spec enumerates. -/
theorem C5_end_to_end_name_table :
    (JsonWriterNode.process (.ok ⟨["Name"], [[.str "john doe"]]⟩)
        .fileNotFound {} {} {}).1 =
      some { pi_code := "MES_REVENGG_TESTRUN",
             sections := [{ title := "SECTION 1",
                            rows := [{ label := "LABEL_NAME",
                                       kind := "TEXT",
                                       code := "Name_TextPara",
                                       html_overrides_value :=
                                         "[GENAI_REVENGG_JOHN_DOE]" }] }] } := by
  rfl

/-- C2: for every table and pattern-rule mapping, `process_sections`
yields exactly one Section per table row; the section at position `i`
carries the title for row index `i + 1`, so the sections are in row
order; its row list has exactly one RowItem per non-null cell of row `i`
and none for a null cell; and a concrete row with 3 of 5 columns null
yields exactly 2 RowItems. -/
theorem C2_sections_shape (table : Table) (rules : PatternConfig) (i : Nat) :
    (JsonWriterNode.process_sections table rules).length = table.rows.length ∧
    ((JsonWriterNode.process_sections table rules)[i]?).map Section.title =
      (table.rows[i]?).map (fun _ =>
        ( PatternConfig.section_prefix rules).getD "SECTION" ++ " " ++
          toString (i + 1)) ∧
    ((JsonWriterNode.process_sections table rules)[i]?).map
        (fun s => s.rows.length) =
      (table.rows[i]?).map (fun r =>
        (table.columns.zip r).countP (fun p => p.2.pd_notna)) ∧
    (JsonWriterNode.process_sections
        { columns := ["c1", "c2", "c3", "c4", "c5"],
          rows := [[.str "x", .null, .null, .intV 7, .null]] } rules).map
      (fun s => s.rows.length) = [2] := by
  refine ⟨?_, ?_, ?_, ?_⟩
  · simp [JsonWriterNode.process_sections, List.enum_length]
  · simp only [JsonWriterNode.process_sections, List.getElem?_map,
      List.getElem?_enum]
    cases table.rows[i]? <;> simp
  · simp only [JsonWriterNode.process_sections, List.getElem?_map,
      List.getElem?_enum]
    cases table.rows[i]? <;> simp [length_row_items]
  · rfl

/-- C7: when the upstream table or the upstream rules come back as
`None`, the transformer's `process` returns `None` and leaves its stored
output state untouched, emitting no partial document. -/
theorem C7_no_partial_output (excel : LoadResult Table)
    (rules_file : LoadResult Rules) (si : InputNode.State)
    (sr : RuleForWriterNode.State) (sw : JsonWriterNode.State)
    (h : (InputNode.get_data excel si).1 = none ∨
         (RuleForWriterNode.get_rules rules_file sr).1 = none) :
    (JsonWriterNode.process excel rules_file si sr sw).1 = none ∧
    (JsonWriterNode.process excel rules_file si sr sw).2.2.2 = sw := by
  unfold JsonWriterNode.process
  rcases h1 : InputNode.get_data excel si with ⟨d1, si1⟩
  rcases d1 with _ | table
  · simp
  · rcases h2 : RuleForWriterNode.get_rules rules_file sr with ⟨d2, sr2⟩
    rcases d2 with _ | r
    · simp
    · rw [h1, h2] at h
      simp at h

/-- Witness for C7 at a concrete failing load: a crashing spreadsheet
read makes `process` return `None` with the writer state unchanged. -/
theorem C7_no_partial_output_witness :
    (JsonWriterNode.process .otherError .fileNotFound {} {} {}).1 = none ∧
    (JsonWriterNode.process .otherError .fileNotFound {} {} {}).2.2.2 =
      ({} : JsonWriterNode.State) :=
  C7_no_partial_output .otherError .fileNotFound {} {} {} (Or.inl rfl)

/-- C8: rule lookup by pattern key is total: a key present in the loaded
rules' `patterns` mapping yields its configured value, an absent key
yields the empty config, and a rules document without a usable
`patterns` mapping also yields the empty config. -/
theorem C8_lookup_total (ps : List (String × PatternConfig)) (key : String)
    (c : PatternConfig) (s : RuleForWriterNode.State) :
    (s.rules = some { patterns := some ps } → ps.lookup key = some c →
        RuleForWriterNode.get_rule_by_pattern s key = c) ∧
    (s.rules = some { patterns := some ps } → ps.lookup key = none →
        RuleForWriterNode.get_rule_by_pattern s key = PatternConfig.empty) ∧
    ((s.rules = none ∨ s.rules = some { patterns := none }) →
        RuleForWriterNode.get_rule_by_pattern s key = PatternConfig.empty) := by
  refine ⟨fun h1 h2 => ?_, fun h1 h2 => ?_, fun h1 => ?_⟩
  · rw [RuleForWriterNode.get_rule_by_pattern, h1]
    simp [h2]
  · rw [RuleForWriterNode.get_rule_by_pattern, h1]
    simp [h2]
  · rcases h1 with h1 | h1 <;> rw [RuleForWriterNode.get_rule_by_pattern, h1]

/-- Witness for C8 on the default rules: the present key `text_pattern`
returns its config, the absent key `section_pattern` returns the empty
config, and unloaded rules return the empty config. -/
theorem C8_lookup_total_witness :
    RuleForWriterNode.get_rule_by_pattern
        { rules := some RuleForWriterNode.get_default_rules } "text_pattern" =
      { pi_code := some "MES_REVENGG_TESTRUN",
        section_prefix := some "SECTION",
        label_prefix := some "LABEL_",
        code_suffix := some "_TextPara",
        kind_mapping :=
          [("text", "TEXT"), ("number", "NUMBER"), ("boolean", "BOOLEAN")] } ∧
    RuleForWriterNode.get_rule_by_pattern
        { rules := some RuleForWriterNode.get_default_rules } "section_pattern" =
      PatternConfig.empty ∧
    RuleForWriterNode.get_rule_by_pattern { rules := none } "text_pattern" =
      PatternConfig.empty :=
  ⟨(C8_lookup_total
      [("text_pattern",
        { pi_code := some "MES_REVENGG_TESTRUN",
          section_prefix := some "SECTION",
          label_prefix := some "LABEL_",
          code_suffix := some "_TextPara",
          kind_mapping :=
            [("text", "TEXT"), ("number", "NUMBER"), ("boolean", "BOOLEAN")] })]
      "text_pattern"
      { pi_code := some "MES_REVENGG_TESTRUN",
        section_prefix := some "SECTION",
        label_prefix := some "LABEL_",
        code_suffix := some "_TextPara",
        kind_mapping :=
          [("text", "TEXT"), ("number", "NUMBER"), ("boolean", "BOOLEAN")] }
      { rules := some RuleForWriterNode.get_default_rules }).1 rfl rfl,
   (C8_lookup_total
      [("text_pattern",
        { pi_code := some "MES_REVENGG_TESTRUN",
          section_prefix := some "SECTION",
          label_prefix := some "LABEL_",
          code_suffix := some "_TextPara",
          kind_mapping :=
            [("text", "TEXT"), ("number", "NUMBER"), ("boolean", "BOOLEAN")] })]
      "section_pattern" PatternConfig.empty
      { rules := some RuleForWriterNode.get_default_rules }).2.1 rfl rfl,
   (C8_lookup_total [] "text_pattern" PatternConfig.empty
      { rules := none }).2.2 (Or.inl rfl)⟩

/-- C9: when the columns select `section_pattern` and the loaded rules
have no `section_pattern` key, the transform falls back to the empty
config: the document gets pi_code `DEFAULT_CODE` and its sections are
exactly those built with the fallback prefixes `SECTION`, `LABEL_` and
`_Code`. -/
theorem C9_section_pattern_fallback (table : Table) (r : Rules)
    (ps : List (String × PatternConfig))
    (h : JsonWriterNode.analyze_data_pattern table.columns = "section_pattern")
    (hr : r.patterns = some ps)
    (hk : ps.lookup "section_pattern" = none) :
    (JsonWriterNode.process (.ok table) (.ok r) {} {} {}).1 =
      some { pi_code := "DEFAULT_CODE",
             sections :=
               JsonWriterNode.process_sections table PatternConfig.empty } ∧
    JsonWriterNode.process_sections table PatternConfig.empty =
      JsonWriterNode.process_sections table
        { pi_code := none, section_prefix := some "SECTION",
          label_prefix := some "LABEL_", code_suffix := some "_Code",
          kind_mapping := [] } := by
  constructor
  · unfold JsonWriterNode.process
    simp only [InputNode.get_data, InputNode.process,
      RuleForWriterNode.get_rules, RuleForWriterNode.process, h,
      RuleForWriterNode.get_rule_by_pattern, hr, hk]
    simp [hr, hk, PatternConfig.empty]
  · rfl

/-- Witness for C9: the table with the single column `Section` under the
built-in default rules (which lack a `section_pattern` key). -/
theorem C9_section_pattern_fallback_witness :
    (JsonWriterNode.process (.ok ⟨["Section"], [[.str "a"]]⟩)
        (.ok RuleForWriterNode.get_default_rules) {} {} {}).1 =
      some { pi_code := "DEFAULT_CODE",
             sections := JsonWriterNode.process_sections
               ⟨["Section"], [[.str "a"]]⟩ PatternConfig.empty } ∧
    JsonWriterNode.process_sections ⟨["Section"], [[.str "a"]]⟩
        PatternConfig.empty =
      JsonWriterNode.process_sections ⟨["Section"], [[.str "a"]]⟩
        { pi_code := none, section_prefix := some "SECTION",
          label_prefix := some "LABEL_", code_suffix := some "_Code",
          kind_mapping := [] } :=
  C9_section_pattern_fallback ⟨["Section"], [[.str "a"]]⟩
    RuleForWriterNode.get_default_rules
    [("text_pattern",
      { pi_code := some "MES_REVENGG_TESTRUN",
        section_prefix := some "SECTION",
        label_prefix := some "LABEL_",
        code_suffix := some "_TextPara",
        kind_mapping :=
          [("text", "TEXT"), ("number", "NUMBER"), ("boolean", "BOOLEAN")] })]
    rfl rfl rfl

theorem get_data_some_state (excel : LoadResult Table) (si : InputNode.State)
    (t : Table) (si1 : InputNode.State)
    (h : InputNode.get_data excel si = (some t, si1)) : si1.data = some t := by
  unfold InputNode.get_data InputNode.process at h
  rcases hsd : si.data with _ | dd <;> rw [hsd] at h
  · cases excel with
    | ok a =>
      simp only [Prod.mk.injEq, Option.some_inj] at h
      rw [← h.2, h.1]
    | fileNotFound => simp at h
    | otherError => simp at h
  · simp only [Prod.mk.injEq, Option.some_inj] at h
    rw [← h.2, hsd, h.1]

theorem get_rules_some_state (rules_file : LoadResult Rules)
    (sr : RuleForWriterNode.State) (r : Rules) (sr1 : RuleForWriterNode.State)
    (h : RuleForWriterNode.get_rules rules_file sr = (some r, sr1)) :
    sr1.rules = some r := by
  unfold RuleForWriterNode.get_rules RuleForWriterNode.process at h
  rcases hsr : sr.rules with _ | rr <;> rw [hsr] at h
  · cases rules_file with
    | ok a =>
      simp only [Prod.mk.injEq, Option.some_inj] at h
      rw [← h.2, h.1]
    | fileNotFound =>
      simp only [Prod.mk.injEq, Option.some_inj] at h
      rw [← h.2, h.1]
    | otherError => simp at h
  · simp only [Prod.mk.injEq, Option.some_inj] at h
    rw [← h.2, hsr, h.1]

theorem writer_process_state (excel : LoadResult Table)
    (rules_file : LoadResult Rules) (si : InputNode.State)
    (sr : RuleForWriterNode.State) (sw : JsonWriterNode.State)
    (d : OutputDocument) (si2 : InputNode.State)
    (sr2 : RuleForWriterNode.State) (sw2 : JsonWriterNode.State)
    (h : JsonWriterNode.process excel rules_file si sr sw =
      (some d, si2, sr2, sw2)) : sw2.output_json = some d := by
  unfold JsonWriterNode.process at h
  rcases h1 : InputNode.get_data excel si with ⟨d1, si1⟩
  rw [h1] at h
  rcases d1 with _ | table
  · simp at h
  · rcases h2 : RuleForWriterNode.get_rules rules_file sr with ⟨d2, sr1⟩
    rw [h2] at h
    rcases d2 with _ | r
    · simp at h
    · simp only [Prod.mk.injEq, Option.some_inj] at h
      rw [← h.2.2.2, ← h.1]

theorem get_output_some_state (excel : LoadResult Table)
    (rules_file : LoadResult Rules) (si : InputNode.State)
    (sr : RuleForWriterNode.State) (sw : JsonWriterNode.State)
    (d : OutputDocument) (si2 : InputNode.State)
    (sr2 : RuleForWriterNode.State) (sw2 : JsonWriterNode.State)
    (h : JsonWriterNode.get_output excel rules_file si sr sw =
      (some d, si2, sr2, sw2)) : sw2.output_json = some d := by
  unfold JsonWriterNode.get_output at h
  rcases hsw : sw.output_json with _ | doc <;> rw [hsw] at h
  · exact writer_process_state excel rules_file si sr sw d si2 sr2 sw2 h
  · simp only [Prod.mk.injEq, Option.some_inj] at h
    rw [← h.2.2.2, hsw, h.1]

/-- C6, counterexample to the claim as stated: when the first load fails
(a crashing read, not a missing file), the cache field stays unset, so a
second `get_data` call performs another file read.  Two calls on one
fresh instance read the underlying file twice, contradicting "read at
most once per component instance regardless of how many times the getter
is called". -/
theorem C6_counterexample_failed_load_rereads :
    (InputNode.get_data .otherError ({} : InputNode.State)).2 =
      ({} : InputNode.State) ∧
    InputNode.get_data_reads ({} : InputNode.State) = 1 ∧
    InputNode.get_data_reads
      (InputNode.get_data .otherError ({} : InputNode.State)).2 = 1 :=
  ⟨rfl, rfl, rfl⟩

/-- C6 as amended: whenever a getter call returns an actual result (not
`None`), the post-state is cached, so any further call to that getter
returns the same result, leaves the state unchanged and performs no
further file read (respectively does not reprocess). -/
theorem C6_amended_memoization (excel : LoadResult Table)
    (rules_file : LoadResult Rules) (si si1 : InputNode.State)
    (sr sr1 : RuleForWriterNode.State) (sw : JsonWriterNode.State)
    (si2 : InputNode.State) (sr2 : RuleForWriterNode.State)
    (sw2 : JsonWriterNode.State) (t : Table) (r : Rules) (d : OutputDocument) :
    (InputNode.get_data excel si = (some t, si1) →
        InputNode.get_data excel si1 = (some t, si1) ∧
        InputNode.get_data_reads si1 = 0) ∧
    (RuleForWriterNode.get_rules rules_file sr = (some r, sr1) →
        RuleForWriterNode.get_rules rules_file sr1 = (some r, sr1) ∧
        RuleForWriterNode.get_rules_reads sr1 = 0) ∧
    (JsonWriterNode.get_output excel rules_file si sr sw =
          (some d, si2, sr2, sw2) →
        JsonWriterNode.get_output excel rules_file si2 sr2 sw2 =
          (some d, si2, sr2, sw2) ∧
        JsonWriterNode.get_output_reprocesses sw2 = false) := by
  refine ⟨fun h => ?_, fun h => ?_, fun h => ?_⟩
  · have hs := get_data_some_state excel si t si1 h
    constructor
    · unfold InputNode.get_data
      rw [hs]
    · unfold InputNode.get_data_reads
      rw [hs]
  · have hs := get_rules_some_state rules_file sr r sr1 h
    constructor
    · unfold RuleForWriterNode.get_rules
      rw [hs]
    · unfold RuleForWriterNode.get_rules_reads
      rw [hs]
  · have hs := get_output_some_state excel rules_file si sr sw d si2 sr2 sw2 h
    constructor
    · unfold JsonWriterNode.get_output
      rw [hs]
    · unfold JsonWriterNode.get_output_reprocesses
      rw [hs]
      rfl

/-- Witness for the amended C6, one concrete success per getter: a
loaded table, the default rules after an absent rules file, and a fully
processed document are each served from cache with zero further reads. -/
theorem C6_amended_memoization_witness :
    (InputNode.get_data (.ok ⟨["A"], [[.intV 1]]⟩)
        { data := some ⟨["A"], [[.intV 1]]⟩ } =
      (some ⟨["A"], [[.intV 1]]⟩, { data := some ⟨["A"], [[.intV 1]]⟩ }) ∧
      InputNode.get_data_reads { data := some ⟨["A"], [[.intV 1]]⟩ } = 0) ∧
    (RuleForWriterNode.get_rules .fileNotFound
        { rules := some RuleForWriterNode.get_default_rules } =
      (some RuleForWriterNode.get_default_rules,
        { rules := some RuleForWriterNode.get_default_rules }) ∧
      RuleForWriterNode.get_rules_reads
        { rules := some RuleForWriterNode.get_default_rules } = 0) ∧
    (JsonWriterNode.get_output (.ok ⟨["A"], [[.intV 1]]⟩) .fileNotFound
        { data := some ⟨["A"], [[.intV 1]]⟩ }
        { rules := some RuleForWriterNode.get_default_rules }
        { output_json := some
            { pi_code := "MES_REVENGG_TESTRUN",
              sections := [{ title := "SECTION 1",
                             rows := [{ label := "LABEL_A", kind := "NUMBER",
                                        code := "A_TextPara",
                                        html_overrides_value :=
                                          "[GENAI_REVENGG_1]" }] }] } } =
      (some { pi_code := "MES_REVENGG_TESTRUN",
              sections := [{ title := "SECTION 1",
                             rows := [{ label := "LABEL_A", kind := "NUMBER",
                                        code := "A_TextPara",
                                        html_overrides_value :=
                                          "[GENAI_REVENGG_1]" }] }] },
        { data := some ⟨["A"], [[.intV 1]]⟩ },
        { rules := some RuleForWriterNode.get_default_rules },
        { output_json := some
            { pi_code := "MES_REVENGG_TESTRUN",
              sections := [{ title := "SECTION 1",
                             rows := [{ label := "LABEL_A", kind := "NUMBER",
                                        code := "A_TextPara",
                                        html_overrides_value :=
                                          "[GENAI_REVENGG_1]" }] }] } }) ∧
      JsonWriterNode.get_output_reprocesses
        { output_json := some
            { pi_code := "MES_REVENGG_TESTRUN",
              sections := [{ title := "SECTION 1",
                             rows := [{ label := "LABEL_A", kind := "NUMBER",
                                        code := "A_TextPara",
                                        html_overrides_value :=
                                          "[GENAI_REVENGG_1]" }] }] } } = false) :=
  ⟨(C6_amended_memoization (.ok ⟨["A"], [[.intV 1]]⟩) .fileNotFound {}
      { data := some ⟨["A"], [[.intV 1]]⟩ } {} {} {} {} {} {}
      ⟨["A"], [[.intV 1]]⟩ RuleForWriterNode.get_default_rules
      { pi_code := "", sections := [] }).1 rfl,
   (C6_amended_memoization .otherError .fileNotFound {} {} {}
      { rules := some RuleForWriterNode.get_default_rules } {} {} {} {}
      ⟨[], []⟩ RuleForWriterNode.get_default_rules
      { pi_code := "", sections := [] }).2.1 rfl,
   (C6_amended_memoization (.ok ⟨["A"], [[.intV 1]]⟩) .fileNotFound {} {} {} {} {}
      { data := some ⟨["A"], [[.intV 1]]⟩ }
      { rules := some RuleForWriterNode.get_default_rules }
      { output_json := some
          { pi_code := "MES_REVENGG_TESTRUN",
            sections := [{ title := "SECTION 1",
                           rows := [{ label := "LABEL_A", kind := "NUMBER",
                                      code := "A_TextPara",
                                      html_overrides_value :=
                                        "[GENAI_REVENGG_1]" }] }] } }
      ⟨[], []⟩ RuleForWriterNode.get_default_rules
      { pi_code := "MES_REVENGG_TESTRUN",
        sections := [{ title := "SECTION 1",
                       rows := [{ label := "LABEL_A", kind := "NUMBER",
                                  code := "A_TextPara",
                                  html_overrides_value :=
                                    "[GENAI_REVENGG_1]" }] }] }).2.2 rfl⟩

theorem process_some_sections_shape (excel : LoadResult Table)
    (rules_file : LoadResult Rules) (si : InputNode.State)
    (sr : RuleForWriterNode.State) (sw : JsonWriterNode.State)
    (doc : OutputDocument)
    (hd : (JsonWriterNode.process excel rules_file si sr sw).1 = some doc) :
    ∃ table cfg, doc.sections = JsonWriterNode.process_sections table cfg := by
  unfold JsonWriterNode.process at hd
  rcases h1 : InputNode.get_data excel si with ⟨d1, si1⟩
  rcases d1 with _ | table <;> rw [h1] at hd
  · simp at hd
  · rcases h2 : RuleForWriterNode.get_rules rules_file sr with ⟨d2, sr1⟩
    rcases d2 with _ | r <;> rw [h2] at hd
    · simp at hd
    · simp only [Option.some_inj] at hd
      exact ⟨table, _, by rw [← hd]⟩

/-- C10 (implicit behaviour of the shipped code): `determine_data_type`
only ever returns `TEXT` or `NUMBER` — never `BOOLEAN`, since the
int/float test precedes the bool test and booleans pass it — and hence
no RowItem of any document `process` produces has kind `BOOLEAN`. -/
theorem C10_no_boolean_kind (v : CellValue) (excel : LoadResult Table)
    (rules_file : LoadResult Rules) (si : InputNode.State)
    (sr : RuleForWriterNode.State) (sw : JsonWriterNode.State)
    (doc : OutputDocument) (sec : Section) (item : RowItem)
    (hd : (JsonWriterNode.process excel rules_file si sr sw).1 = some doc)
    (hs : sec ∈ doc.sections) (hi : item ∈ sec.rows) :
    (JsonWriterNode.determine_data_type v = "TEXT" ∨
      JsonWriterNode.determine_data_type v = "NUMBER") ∧
    JsonWriterNode.determine_data_type v ≠ "BOOLEAN" ∧
    item.kind ≠ "BOOLEAN" := by
  refine ⟨determine_data_type_text_or_number v,
    determine_data_type_ne_boolean v, ?_⟩
  obtain ⟨table, cfg, hsec⟩ :=
    process_some_sections_shape excel rules_file si sr sw doc hd
  rw [hsec] at hs
  rw [JsonWriterNode.process_sections, List.mem_map] at hs
  obtain ⟨p, _, hp⟩ := hs
  rw [← hp] at hi
  obtain ⟨w, hw⟩ := mem_row_items_kind _ _ _ item hi
  rw [hw]
  exact determine_data_type_ne_boolean w

/-- Witness for C10 at a table holding the boolean `True`: the produced
RowItem has kind `NUMBER`, not `BOOLEAN`. -/
theorem C10_no_boolean_kind_witness :
    (JsonWriterNode.determine_data_type (.boolV true) = "TEXT" ∨
      JsonWriterNode.determine_data_type (.boolV true) = "NUMBER") ∧
    JsonWriterNode.determine_data_type (.boolV true) ≠ "BOOLEAN" ∧
    RowItem.kind { label := "LABEL_A", kind := "NUMBER", code := "A_TextPara",
                   html_overrides_value := "[GENAI_REVENGG_TRUE]" } ≠
      "BOOLEAN" :=
  C10_no_boolean_kind (.boolV true) (.ok ⟨["A"], [[.boolV true]]⟩)
    .fileNotFound {} {} {}
    { pi_code := "MES_REVENGG_TESTRUN",
      sections := [{ title := "SECTION 1",
                     rows := [{ label := "LABEL_A", kind := "NUMBER",
                                code := "A_TextPara",
                                html_overrides_value :=
                                  "[GENAI_REVENGG_TRUE]" }] }] }
    { title := "SECTION 1",
      rows := [{ label := "LABEL_A", kind := "NUMBER", code := "A_TextPara",
                 html_overrides_value := "[GENAI_REVENGG_TRUE]" }] }
    { label := "LABEL_A", kind := "NUMBER", code := "A_TextPara",
      html_overrides_value := "[GENAI_REVENGG_TRUE]" }
    rfl (List.mem_singleton.mpr rfl) (List.mem_singleton.mpr rfl)
